import Mathlib

/-!
Verification of the langgraph-multi-agent repository: a shallow embedding of
the conversation-state data model, the reducers, the routing function, the
agent node wrapper and the chart tool handler, with theorems settling the
specification claims.
-/

namespace LGMA

/-- Role of one conversation turn, mirroring the message classes of the
message library (SystemMessage, HumanMessage, AIMessage, ToolMessage). -/
inductive Role where
  | system
  | human
  | ai
  | toolResult
deriving DecidableEq, Repr

/-- One requested tool invocation embedded in a message: a tool name and an
opaque argument payload. -/
structure ToolCall where
  name : String
  args : String
deriving DecidableEq, Repr

/-- One turn in the conversation.  In the source a message optionally carries
a list of requested tool invocations (the JS field may be undefined, hence
Option) and an optional originating agent name. -/
structure Message where
  role : Role
  content : String
  tool_calls : Option (List ToolCall) := none
  name : Option String := none
deriving DecidableEq, Repr

/-- The graph state of src/unnamed/part_000 (Annotation.Root with a single
messages channel whose default is the empty list). -/
structure GraphState where
  messages : List Message := []
deriving DecidableEq, Repr

/-- The messages channel reducer of both state schemas:
`(x, y) => x.concat(y)` in src/multi-agent.ts and part_000. -/
def messagesReducer (x y : List Message) : List Message :=
  x ++ y

/-- The sender channel reducer of src/multi-agent.ts:
`(x, y) => y ?? x ?? "user"`.  The inputs model JS values that may be
null or undefined (none); the JS nullish-coalescing chain always yields a
string, hence the result is some value. -/
def senderReducer (x y : Option String) : Option String :=
  match y with
  | some s => some s
  | none =>
    match x with
    | some s => some s
    | none => some "user"

/-- The state of src/multi-agent.ts (AgentState): the messages channel plus
the sender channel (default value user, written at channel initialisation). -/
structure MAState where
  messages : List Message := []
  sender : Option String := some "user"
deriving DecidableEq, Repr

/-- A state delta returned by one node of the multi-agent graph: a list of
messages to append and an optionally supplied sender. -/
structure MADelta where
  messages : List Message := []
  sender : Option String := none
deriving DecidableEq, Repr

/-- The orchestrator merge of one delta into the state, applying each
channel reducer field by field. -/
def mergeMA (s : MAState) (d : MADelta) : MAState :=
  { messages := messagesReducer s.messages d.messages
    sender := senderReducer s.sender d.sender }

/-- Merging a whole sequence of step deltas, one orchestrator step each. -/
def applyDeltas (s : MAState) (ds : List MADelta) : MAState :=
  ds.foldl mergeMA s

/-- The routing function shouldContinue of src/unnamed/part_000.  It reads
`messages[messages.length - 1]` and tests `lastMessage.tool_calls?.length`.
When the messages list is empty the indexing yields undefined and the field
access on undefined throws a TypeError, modelled as the error branch. -/
def shouldContinue (state : GraphState) : Except String String :=
  match state.messages.getLast? with
  | none => .error "TypeError: cannot read tool_calls of undefined"
  | some lastMessage =>
    if (lastMessage.tool_calls.getD []).length ≠ 0 then
      .ok "tools"
    else
      .ok "__end__"

/-- The reclassification of runAgentNode in src/multi-agent.ts:
`new HumanMessage({ ...result, name: name })` spreads the model response and
tags it with the agent name; the constructed human message carries no
tool_calls field. -/
def reclassify (result : Message) (name : String) : Message :=
  { result with role := .human, name := some name, tool_calls := none }

/-- Whether the JS guard `!result?.tool_calls || result.tool_calls.length === 0`
holds: the tool_calls field is absent or the empty list. -/
def noToolCalls (result : Message) : Bool :=
  match result.tool_calls with
  | none => true
  | some l => l.isEmpty

/-- The agent node wrapper runAgentNode of src/multi-agent.ts, after the
model call returned result: reclassify a tool-free response as a human
message tagged with the agent name, then return the delta
consisting of that single message and the agent name as sender. -/
def runAgentNode (result : Message) (name : String) : MADelta :=
  let result := if noToolCalls result then reclassify result name else result
  { messages := [result], sender := some name }

/-- The research node of src/multi-agent.ts: runAgentNode with the research
agent under the name Researcher, given the model response. -/
def researchNode (response : Message) : MADelta :=
  runAgentNode response "Researcher"

/-- The chart node of src/multi-agent.ts: runAgentNode with the chart agent
under the name ChartGenerator, given the model response. -/
def chartNode (response : Message) : MADelta :=
  runAgentNode response "ChartGenerator"

/-- Reachable states of the multi-agent system of src/multi-agent.ts: an
initial state whose sender is the channel default user or the value User of
the example invocation, closed under merging the delta of the research node
or of the chart node for any model response. -/
inductive ReachableMA : MAState → Prop where
  | init (msgs : List Message) (s : String) (hs : s = "user" ∨ s = "User") :
      ReachableMA { messages := msgs, sender := some s }
  | research (s : MAState) (r : Message) (h : ReachableMA s) :
      ReachableMA (mergeMA s (researchNode r))
  | chart (s : MAState) (r : Message) (h : ReachableMA s) :
      ReachableMA (mergeMA s (chartNode r))

/-! ## The compiled graph of src/unnamed/part_000 -/

/-- Nodes of the compiled single-agent graph: the builtin start marker, the
agent node (callModel), the tools node (the prebuilt ToolNode) and the
builtin terminal marker returned by the routing function as the end name. -/
inductive Node where
  | start
  | agent
  | tools
  | terminal
deriving DecidableEq, Repr

/-- The agent node callModel of src/unnamed/part_000 merged into the state:
the model is invoked on the state messages and the returned delta is the
single response message, appended via the messages reducer. -/
def agentStep (model : List Message → Message) (s : GraphState) : GraphState :=
  { messages := messagesReducer s.messages [model s.messages] }

/-- The tools node merged into the state: the prebuilt ToolNode is a
delegated library component, modelled as an oracle producing the tool result
messages for the current state, appended via the messages reducer. -/
def toolsStepMerge (toolExec : GraphState → List Message) (s : GraphState) :
    GraphState :=
  { messages := messagesReducer s.messages (toolExec s) }

/-- One transition of the compiled graph of src/unnamed/part_000, following
its edges: a fixed edge from start to agent, conditional edges out of agent
chosen by shouldContinue on the merged state, and a fixed edge from tools
back to agent (the only edge out of tools). -/
inductive Step (model : List Message → Message)
    (toolExec : GraphState → List Message) :
    Node × GraphState → Node × GraphState → Prop where
  | start_edge (s : GraphState) :
      Step model toolExec (Node.start, s) (Node.agent, s)
  | agent_to_tools (s : GraphState)
      (h : shouldContinue (agentStep model s) = Except.ok "tools") :
      Step model toolExec (Node.agent, s) (Node.tools, agentStep model s)
  | agent_to_end (s : GraphState)
      (h : shouldContinue (agentStep model s) = Except.ok "__end__") :
      Step model toolExec (Node.agent, s) (Node.terminal, agentStep model s)
  | tools_edge (s : GraphState) :
      Step model toolExec (Node.tools, s)
        (Node.agent, toolsStepMerge toolExec s)

/-! ## The orchestrator loop, modelled from the spec -/

/-- Errors of the orchestrator run, per section 7 of the spec. -/
inductive RunErr where
  | StepLimitExceeded (state : GraphState)
deriving DecidableEq, Repr

/-- Modelled from the spec: the orchestrator execution loop with an
operator-configured maximum step count is implemented by the delegated
graph library, so its body is missing from src (src/unnamed/part_000 only
compiles the graph and invokes it).  Per section 4.4, on entering a node the
loop invokes it, merges the returned delta and routes; reaching the
terminal marker succeeds with the current state, and a maximum step count
exceeded must fail with StepLimitExceeded rather than loop forever,
returning the state as merged up to that point.  The stepFn argument
abstracts one step: invoke the node on the state, merge, and route. -/
def runLoop (stepFn : Node → GraphState → Node × GraphState) :
    Nat → Node → GraphState → Except RunErr GraphState
  | remaining, n, s =>
    if n = Node.terminal then
      .ok s
    else
      match remaining with
      | 0 => .error (RunErr.StepLimitExceeded s)
      | r + 1 =>
        let c := stepFn n s
        runLoop stepFn r c.1 c.2

/-- Iterating the step function k times from a node and state. -/
def stepsFrom (stepFn : Node → GraphState → Node × GraphState) :
    Nat → Node → GraphState → Node × GraphState
  | 0, n, s => (n, s)
  | k + 1, n, s =>
    let c := stepFn n s
    stepsFrom stepFn k c.1 c.2

/-- The agent message of the looping scenario: a response always requesting
one tool invocation. -/
def loopingAgentMsg : Message :=
  { role := Role.ai, content := "",
    tool_calls := some [{ name := "search", args := "X" }] }

/-- The looping graph of the step-limit scenario of the spec: the agent
always requests a tool, and the dispatcher always routes back to the
agent. -/
def loopingStep : Node → GraphState → Node × GraphState
  | Node.start, s => (Node.agent, s)
  | Node.agent, s =>
      (Node.tools, { messages := messagesReducer s.messages [loopingAgentMsg] })
  | Node.tools, s =>
      (Node.agent,
        { messages := messagesReducer s.messages
            [{ role := Role.toolResult, content := "result" }] })
  | Node.terminal, s => (Node.terminal, s)

/-! ## The tool dispatcher, modelled from the spec -/

/-- Modelled from the spec: a Tool Descriptor of the Tool Registry, a name,
a structured input schema (modelled as a validation test on the argument
payload) and an executable handler. -/
structure ToolDesc where
  name : String
  valid : String → Bool
  handler : String → String

/-- Dispatcher-local errors, per section 7 of the spec. -/
inductive DispatchErr where
  | UnknownTool (name : String)
  | InvalidToolArguments (name : String)
deriving DecidableEq, Repr

/-- Looking up a Tool Descriptor by name in the registry. -/
def lookupTool (reg : List ToolDesc) (n : String) : Option ToolDesc :=
  reg.find? (fun t => t.name == n)

/-- Modelled from the spec: the Tool Dispatcher body is the prebuilt
ToolNode of the delegated graph library, bound at src/unnamed/part_000 line
42, so its body is missing from src.  Per section 4.2 it processes the
requested tool invocations in order: for each, look up the Tool Descriptor
by name, failing with UnknownTool if absent; validate the argument payload,
failing with InvalidToolArguments on mismatch; execute the handler and wrap
the result as a tool-result message tagged with the originating
invocation. -/
def dispatchCalls (reg : List ToolDesc) :
    List ToolCall → Except DispatchErr (List Message)
  | [] => .ok []
  | c :: cs =>
    match lookupTool reg c.name with
    | none => .error (DispatchErr.UnknownTool c.name)
    | some t =>
      if t.valid c.args then
        (dispatchCalls reg cs).map
          (fun rest =>
            { role := Role.toolResult, content := t.handler c.args,
              name := some c.name } :: rest)
      else
        .error (DispatchErr.InvalidToolArguments c.name)

/-- Modelled from the spec: one Dispatcher step over the state inspects the
requested tool invocations of the last message and, on success, returns the
state with the result messages merged via the messages reducer; on a
dispatch error the error is surfaced and no delta is produced. -/
def dispatchStep (reg : List ToolDesc) (s : GraphState) :
    Except DispatchErr GraphState :=
  match s.messages.getLast? with
  | none => .ok s
  | some m =>
    (dispatchCalls reg (m.tool_calls.getD [])).map
      (fun results => { messages := messagesReducer s.messages results })

/-- Modelled from the spec: the orchestrator merges the delta of a
successful step and leaves the state unchanged when the step surfaced an
error (no delta merged). -/
def mergeOrKeep (s : GraphState) (r : Except DispatchErr GraphState) :
    GraphState :=
  match r with
  | .ok s2 => s2
  | .error _ => s

/-! ## The chart tool of src/multi-agent.ts -/

/-- One data point of the chart tool schema: a label and a numeric value. -/
structure DataPoint where
  label : String
  value : ℚ

/-- One drawing operation issued to the 2D canvas context.  The canvas and
the notebook display channel are external collaborators; the side effects
are modelled as a log of emitted drawing commands. -/
inductive DrawCmd where
  | fillRect (color : String) (x y w h : ℚ)
  | line (x1 y1 x2 y2 : ℚ)
  | text (s : String) (x y : ℚ)
  | displayPng

/-- The color palette of the chart tool. -/
def colorPalette : List String :=
  ["#e6194B", "#3cb44b", "#ffe119", "#4363d8", "#f58231",
   "#911eb4", "#42d4f4", "#f032e6", "#bfef45", "#fabebe"]

/-- Step of the band scale, modelled from the d3 collaborator for domain
size n, range 40 to 470 and padding 1/10: the range divided by n plus the
padding. -/
def bandStep (n : Nat) : ℚ :=
  if n = 0 then 0 else (470 - 40) / (n + 1 / 10)

/-- Start position of band i, modelled from the d3 collaborator: the range
start offset by the padding share of one step. -/
def bandPos (n i : Nat) : ℚ :=
  40 + bandStep n * (1 / 10 + i)

/-- Width of one band, modelled from the d3 collaborator: one step minus the
inner padding. -/
def bandwidth (n : Nat) : ℚ :=
  bandStep n * (9 / 10)

/-- The maximum of the data values with the nullish fallback of the source,
`d3.max(data, d => d.value) ?? 0`: zero on an empty array. -/
def dataMax (data : List DataPoint) : ℚ :=
  (data.map DataPoint.value).foldr max 0

/-- The linear y scale, modelled from the d3 collaborator: domain 0 to the
data maximum, range 470 down to 20; a degenerate domain maps to the middle
of the range. -/
def yScale (dmax v : ℚ) : ℚ :=
  if dmax = 0 then (470 + 20) / 2 else 470 + (20 - 470) * (v / dmax)

/-- Tick values of the y scale, modelled simply from the d3 collaborator:
values within the domain. -/
def yTicks (dmax : ℚ) : List ℚ :=
  if dmax = 0 then [0] else [0, dmax]

/-- Position of a label in the band domain: the index of its first
occurrence among the labels (the d3 band scale maps a domain value through
its index). -/
def labelIndex (labels : List String) (l : String) : Option Nat :=
  labels.indexOf? l

/-- The drawing commands emitted by the chart tool handler, in source
order: one filled bar per datum colored by index modulo the palette size,
the x axis line, the x labels, the y axis line, and the y ticks with their
labels; finally the rendered png is sent to the display channel. -/
def chartCmds (data : List DataPoint) : List DrawCmd :=
  let n := data.length
  let labels := data.map DataPoint.label
  let dmax := dataMax data
  let xOf : String → ℚ := fun l =>
    match labelIndex labels l with
    | some i => bandPos n i
    | none => 0
  let bars := data.enum.map (fun p =>
    DrawCmd.fillRect (colorPalette.getD (p.1 % colorPalette.length) "")
      (xOf p.2.label) (yScale dmax p.2.value) (bandwidth n)
      (470 - yScale dmax p.2.value))
  let xAxis := [DrawCmd.line 40 470 470 470]
  let xLabels := labels.map (fun l =>
    DrawCmd.text l (xOf l + bandwidth n / 2) (470 + 6))
  let yAxis := [DrawCmd.line 40 480 40 470]
  let tickCmds := (yTicks dmax).map (fun t =>
    DrawCmd.line 40 (yScale dmax t) 34 (yScale dmax t))
  let tickLabels := (yTicks dmax).map (fun t =>
    DrawCmd.text (toString t) 32 (yScale dmax t))
  bars ++ xAxis ++ xLabels ++ yAxis ++ tickCmds ++ tickLabels
    ++ [DrawCmd.displayPng]

/-- The chart tool handler of src/multi-agent.ts: renders the bar chart to
the canvas, displays the png, and returns a fixed confirmation string. -/
def chartTool (data : List DataPoint) : List DrawCmd × String :=
  (chartCmds data, "Chart has been generated and displayed to the user!")

/-! ## General lemmas about the merge of step deltas -/

/-- Merging a sequence of deltas appends the concatenation of their message
lists to the initial messages. -/
theorem applyDeltas_messages (init : MAState) (ds : List MADelta) :
    (applyDeltas init ds).messages
      = init.messages ++ (ds.map (fun d => d.messages)).flatten := by
  induction ds generalizing init with
  | nil => simp [applyDeltas]
  | cons d ds ih =>
    simp only [applyDeltas, List.foldl_cons, List.map_cons, List.flatten] at *
    rw [ih]
    simp [mergeMA, messagesReducer]

/-- With a default value, the last element of a cons list is the last element
of the tail defaulting to the head. -/
theorem getLast?_cons_getD {α : Type} (a b : α) (l : List α) :
    ((a :: l).getLast?).getD b = (l.getLast?).getD a := by
  induction l generalizing a b with
  | nil => rfl
  | cons c l ih =>
    rw [List.getLast?_cons_cons]
    exact (ih c b).trans (ih c a).symm

/-- The sender after merging a sequence of deltas is the last sender value
supplied by any delta, or the prior sender when none supplies one. -/
theorem applyDeltas_sender (s : MAState) (ds : List MADelta)
    (h : s.sender.isSome) :
    (applyDeltas s ds).sender
      = some (((ds.filterMap MADelta.sender).getLast?).getD (s.sender.getD "user")) := by
  induction ds generalizing s with
  | nil =>
    obtain ⟨v, hv⟩ := Option.isSome_iff_exists.mp h
    simp [applyDeltas, hv]
  | cons d ds ih =>
    obtain ⟨v, hv⟩ := Option.isSome_iff_exists.mp h
    cases hd : d.sender with
    | none =>
      have hmerge : (mergeMA s d).sender = s.sender := by
        simp [mergeMA, senderReducer, hd, hv]
      have ihx := ih (mergeMA s d) (by rw [hmerge]; exact h)
      simp only [applyDeltas, List.foldl_cons] at ihx ⊢
      rw [ihx, hmerge, List.filterMap_cons, hd]
    | some n =>
      have hmerge : (mergeMA s d).sender = some n := by
        simp [mergeMA, senderReducer, hd]
      have ihx := ih (mergeMA s d) (by rw [hmerge]; rfl)
      simp only [applyDeltas, List.foldl_cons] at ihx ⊢
      rw [ihx, hmerge, List.filterMap_cons, hd]
      simp only [Option.getD_some]
      rw [getLast?_cons_getD]

/-- A routing result of the end name means the last message exists and
carries no tool invocation request. -/
theorem shouldContinue_end_no_tool_calls (s : GraphState)
    (h : shouldContinue s = Except.ok "__end__") :
    ∃ m, s.messages.getLast? = some m
      ∧ (m.tool_calls = none ∨ m.tool_calls = some []) := by
  unfold shouldContinue at h
  cases hl : s.messages.getLast? with
  | none => rw [hl] at h; simp at h
  | some m =>
    rw [hl] at h
    dsimp only at h
    refine ⟨m, rfl, ?_⟩
    by_cases htc : (m.tool_calls.getD []).length ≠ 0
    · rw [if_pos htc] at h; simp at h
    · push_neg at htc
      cases hmc : m.tool_calls with
      | none => exact Or.inl rfl
      | some l =>
        rw [hmc] at htc
        simp only [Option.getD_some, List.length_eq_zero] at htc
        subst htc
        exact Or.inr rfl

/-! ## Claims -/

/-- C1: the messages field of the state is append-only across every sequence
of orchestrator steps: after merging N step deltas its length equals the
initial length plus the sum of the lengths of the delta message lists, and
the initial messages survive unchanged as a prefix (the reducer is list
concatenation, so no prior message is replaced or removed). -/
theorem c1_messages_append_only (init : MAState) (ds : List MADelta) :
    (applyDeltas init ds).messages.length
        = init.messages.length + (ds.map (fun d => d.messages.length)).sum
    ∧ (applyDeltas init ds).messages.take init.messages.length = init.messages := by
  constructor
  · rw [applyDeltas_messages]
    simp only [List.length_append, List.length_flatten, List.map_map]
    rfl
  · rw [applyDeltas_messages]
    simp

/-- C2: the sender reducer is last-write-wins over present values only:
after merging a sequence of step deltas, sender equals the sender supplied
by the most recent delta that supplies one (Agent steps), and deltas
supplying no sender (Dispatcher steps) leave it unchanged. -/
theorem c2_sender_last_write_wins (s : MAState) (ds : List MADelta)
    (h : s.sender.isSome) :
    (applyDeltas s ds).sender
      = some (((ds.filterMap MADelta.sender).getLast?).getD (s.sender.getD "user"))
    ∧ (∀ d : MADelta, d.sender = none → (mergeMA s d).sender = s.sender) := by
  refine ⟨applyDeltas_sender s ds h, ?_⟩
  intro d hd
  obtain ⟨v, hv⟩ := Option.isSome_iff_exists.mp h
  simp [mergeMA, senderReducer, hd, hv]

/-- Witness for C2 at a concrete run: an Agent delta supplying Researcher
followed by a Dispatcher delta supplying no sender leaves the sender at
Researcher. -/
theorem c2_sender_last_write_wins_witness :
    (applyDeltas { messages := [], sender := some "user" }
      [{ messages := [], sender := some "Researcher" },
       { messages := [], sender := none }]).sender = some "Researcher" := by
  have hth := c2_sender_last_write_wins
    { messages := [], sender := some "user" }
    [{ messages := [], sender := some "Researcher" },
     { messages := [], sender := none }] rfl
  simpa using hth.1

/-- C3: an Agent step returns a delta of exactly one message together with
the agent name as sender, and a model response carrying zero tool invocation
requests is reclassified as a human conversational message attributed to the
agent name (content preserved) before being returned. -/
theorem c3_agent_delta_shape (result : Message) (name : String) :
    (runAgentNode result name).sender = some name
    ∧ (runAgentNode result name).messages.length = 1
    ∧ (noToolCalls result = true →
        (runAgentNode result name).messages
          = [{ role := Role.human, content := result.content,
               tool_calls := none, name := some name }])
    ∧ (noToolCalls result = false →
        (runAgentNode result name).messages = [result]) := by
  refine ⟨rfl, ?_, ?_, ?_⟩
  · cases h : noToolCalls result <;> simp [runAgentNode, h]
  · intro h
    simp [runAgentNode, h, reclassify]
  · intro h
    simp [runAgentNode, h]

/-- Witness for C3 at the scenario of the spec: a model stub echoing a
non-tool response for agent Researcher yields the delta consisting of one
human-tagged echo message and sender Researcher. -/
theorem c3_agent_delta_shape_witness :
    (runAgentNode { role := Role.ai, content := "echo" } "Researcher").sender
        = some "Researcher"
    ∧ (runAgentNode { role := Role.ai, content := "echo" } "Researcher").messages
        = [{ role := Role.human, content := "echo",
             tool_calls := none, name := some "Researcher" }] := by
  have hth := c3_agent_delta_shape { role := Role.ai, content := "echo" } "Researcher"
  exact ⟨hth.1, hth.2.2.1 rfl⟩

/-- C4: the routing function decides from the last message only: with a last
message present, it routes to tools exactly when that message carries one or
more pending tool invocations and to the terminal marker otherwise, and any
two states with the identical last message get the identical decision. -/
theorem c4_routing_from_last_message (s : GraphState) (m : Message)
    (h : s.messages.getLast? = some m) :
    ((∃ tc, m.tool_calls = some tc ∧ tc ≠ []) → shouldContinue s = .ok "tools")
    ∧ ((m.tool_calls = none ∨ m.tool_calls = some []) →
        shouldContinue s = .ok "__end__")
    ∧ (∀ t : GraphState, t.messages.getLast? = some m →
        shouldContinue t = shouldContinue s) := by
  refine ⟨?_, ?_, ?_⟩
  · rintro ⟨tc, htc, hne⟩
    simp [shouldContinue, h, htc, hne]
  · rintro (htc | htc) <;> simp [shouldContinue, h, htc]
  · intro t ht
    simp [shouldContinue, h, ht]

/-- Witness for C4: a state whose last message requests one tool invocation
routes to tools, and a state whose last message requests none terminates. -/
theorem c4_routing_from_last_message_witness :
    shouldContinue
        { messages := [{ role := Role.ai, content := "",
                         tool_calls := some [{ name := "tavily", args := "q" }] }] }
      = .ok "tools"
    ∧ shouldContinue
        { messages := [{ role := Role.human, content := "hi" }] }
      = .ok "__end__" := by
  constructor
  · exact (c4_routing_from_last_message
      { messages := [{ role := Role.ai, content := "",
                       tool_calls := some [{ name := "tavily", args := "q" }] }] }
      { role := Role.ai, content := "",
        tool_calls := some [{ name := "tavily", args := "q" }] }
      (by simp)).1 ⟨[{ name := "tavily", args := "q" }], rfl, by simp⟩
  · exact (c4_routing_from_last_message
      { messages := [{ role := Role.human, content := "hi" }] }
      { role := Role.human, content := "hi" }
      (by simp)).2.1 (Or.inl rfl)

/-- Counterexample for C5: on the state whose messages list is empty (the
default value of the messages channel) the routing function does not return
a next-node value; reading the tool_calls field of an undefined last message
throws, so shouldContinue yields the error branch. -/
theorem c5_routing_not_total_on_empty :
    shouldContinue { messages := [] }
      = .error "TypeError: cannot read tool_calls of undefined" := rfl

/-- C5 (amended): the routing function returns a next-node value, either
tools or the terminal marker, for every state whose messages list is
nonempty; this covers every state at which the compiled graph evaluates
routing, since the conditional edge is evaluated only after the agent node
appended its response message. -/
theorem c5_routing_total_on_nonempty (s : GraphState)
    (h : s.messages ≠ []) :
    ∃ r, shouldContinue s = .ok r ∧ (r = "tools" ∨ r = "__end__") := by
  obtain ⟨m, hm⟩ := Option.isSome_iff_exists.mp (List.getLast?_isSome.mpr h)
  by_cases htc : (m.tool_calls.getD []).length ≠ 0
  · exact ⟨"tools", by simp [shouldContinue, hm, htc], Or.inl rfl⟩
  · exact ⟨"__end__", by simp [shouldContinue, hm, htc], Or.inr rfl⟩

/-- Witness for C5 (amended): the routing function returns the terminal
marker on a concrete nonempty state. -/
theorem c5_routing_total_on_nonempty_witness :
    ∃ r, shouldContinue { messages := [{ role := Role.human, content := "hi" }] }
        = .ok r ∧ (r = "tools" ∨ r = "__end__") :=
  c5_routing_total_on_nonempty
    { messages := [{ role := Role.human, content := "hi" }] } (by simp)

/-- C6: with an operator-configured maximum step count, a run over a graph
that never routes to the terminal marker fails with StepLimitExceeded after
exactly the configured number of steps rather than looping forever,
returning the state as merged up to that point. -/
theorem c6_step_limit_exceeded
    (stepFn : Node → GraphState → Node × GraphState) (limit : Nat)
    (n : Node) (s : GraphState)
    (hn : n ≠ Node.terminal)
    (hloop : ∀ m t, m ≠ Node.terminal → (stepFn m t).1 ≠ Node.terminal) :
    runLoop stepFn limit n s
      = .error (RunErr.StepLimitExceeded (stepsFrom stepFn limit n s).2) := by
  induction limit generalizing n s with
  | zero => simp [runLoop, hn, stepsFrom]
  | succ k ih =>
    have hnext := hloop n s hn
    have hrec := ih (stepFn n s).1 (stepFn n s).2 hnext
    simpa [runLoop, stepsFrom, hn] using hrec

/-- Witness for C6 at the scenario of the spec: step limit 1 on the looping
graph whose agent always requests a tool fails with StepLimitExceeded after
exactly 1 step, the state holding the one appended agent message. -/
theorem c6_step_limit_exceeded_witness :
    runLoop loopingStep 1 Node.agent
        { messages := [{ role := Role.human, content := "hi" }] }
      = .error (RunErr.StepLimitExceeded
          { messages := [{ role := Role.human, content := "hi" },
                         loopingAgentMsg] }) := by
  have hth := c6_step_limit_exceeded loopingStep 1 Node.agent
    { messages := [{ role := Role.human, content := "hi" }] }
    (by decide)
    (fun m t hm => by
      cases m with
      | start => exact fun h => Node.noConfusion h
      | agent => exact fun h => Node.noConfusion h
      | tools => exact fun h => Node.noConfusion h
      | terminal => exact absurd rfl hm)
  simpa [stepsFrom, loopingStep, messagesReducer] using hth

/-- C7: when the last message carries an invocation of a tool name not
registered with the Dispatcher, the Dispatcher fails with UnknownTool and no
delta is merged, the state being unchanged on this error. -/
theorem c7_unknown_tool (reg : List ToolDesc) (s : GraphState)
    (m : Message) (c : ToolCall)
    (hlast : s.messages.getLast? = some m)
    (hcalls : m.tool_calls = some [c])
    (hunknown : ∀ t ∈ reg, t.name ≠ c.name) :
    dispatchStep reg s = .error (DispatchErr.UnknownTool c.name)
    ∧ mergeOrKeep s (dispatchStep reg s) = s := by
  have hfind : lookupTool reg c.name = none := by
    apply List.find?_eq_none.mpr
    intro t ht
    simpa using hunknown t ht
  have hdisp : dispatchStep reg s = .error (DispatchErr.UnknownTool c.name) := by
    simp [dispatchStep, hlast, hcalls, dispatchCalls, hfind, Except.map]
  exact ⟨hdisp, by simp [mergeOrKeep, hdisp]⟩

/-- Witness for C7 at the scenario of the spec: a last message invoking the
unregistered tool foo against a registry holding only search fails with
UnknownTool and leaves the state unchanged. -/
theorem c7_unknown_tool_witness :
    dispatchStep
        [{ name := "search", valid := fun _ => true,
           handler := fun _ => "result" }]
        { messages := [{ role := Role.ai, content := "",
                         tool_calls := some [{ name := "foo", args := "" }] }] }
      = .error (DispatchErr.UnknownTool "foo")
    ∧ mergeOrKeep
        { messages := [{ role := Role.ai, content := "",
                         tool_calls := some [{ name := "foo", args := "" }] }] }
        (dispatchStep
          [{ name := "search", valid := fun _ => true,
             handler := fun _ => "result" }]
          { messages := [{ role := Role.ai, content := "",
                           tool_calls := some [{ name := "foo", args := "" }] }] })
      = { messages := [{ role := Role.ai, content := "",
                         tool_calls := some [{ name := "foo", args := "" }] }] } :=
  c7_unknown_tool _ _
    { role := Role.ai, content := "",
      tool_calls := some [{ name := "foo", args := "" }] }
    { name := "foo", args := "" }
    (by simp) rfl
    (by
      intro t ht
      rw [List.mem_singleton] at ht
      subst ht
      decide)

/-- C8: in every reachable state of the multi-agent run, the sender field is
one of the known agent names Researcher and ChartGenerator or the sentinel
initial value user or User; no operation ever sets it to any other value. -/
theorem c8_sender_known_names (s : MAState) (h : ReachableMA s) :
    s.sender = some "user" ∨ s.sender = some "User"
    ∨ s.sender = some "Researcher" ∨ s.sender = some "ChartGenerator" := by
  induction h with
  | init msgs v hv => rcases hv with h | h <;> simp [h]
  | research s r h ih =>
    right; right; left
    simp [mergeMA, senderReducer, researchNode, runAgentNode]
  | chart s r h ih =>
    right; right; right
    simp [mergeMA, senderReducer, chartNode, runAgentNode]

/-- Witness for C8: the state reached by a research step from the example
initial state has a sender among the known values. -/
theorem c8_sender_known_names_witness :
    (mergeMA { messages := [], sender := some "User" }
        (researchNode { role := Role.ai, content := "data" })).sender
        = some "user"
    ∨ (mergeMA { messages := [], sender := some "User" }
        (researchNode { role := Role.ai, content := "data" })).sender
        = some "User"
    ∨ (mergeMA { messages := [], sender := some "User" }
        (researchNode { role := Role.ai, content := "data" })).sender
        = some "Researcher"
    ∨ (mergeMA { messages := [], sender := some "User" }
        (researchNode { role := Role.ai, content := "data" })).sender
        = some "ChartGenerator" :=
  c8_sender_known_names _
    (ReachableMA.research { messages := [], sender := some "User" }
      { role := Role.ai, content := "data" }
      (ReachableMA.init [] "User" (Or.inr rfl)))

/-- C9: in the compiled single-agent graph, a transition into the terminal
marker happens only from the agent node, with the merged state produced by
the agent step and a last message carrying no tool calls; and the tools node
has its fixed edge back to the agent node as its only outgoing edge, so the
run never terminates directly after a tool-dispatch step. -/
theorem c9_terminal_only_after_agent
    (model : List Message → Message) (toolExec : GraphState → List Message)
    (n : Node) (s s2 : GraphState)
    (hstep : Step model toolExec (n, s) (Node.terminal, s2)) :
    (n = Node.agent ∧ s2 = agentStep model s
      ∧ shouldContinue s2 = Except.ok "__end__"
      ∧ ∃ m, s2.messages.getLast? = some m
          ∧ (m.tool_calls = none ∨ m.tool_calls = some []))
    ∧ ∀ (t : GraphState) (c : Node × GraphState),
        Step model toolExec (Node.tools, t) c → c.1 = Node.agent := by
  constructor
  · cases hstep with
    | agent_to_end s h =>
      exact ⟨rfl, rfl, h, shouldContinue_end_no_tool_calls _ h⟩
  · intro t c hc
    cases hc with
    | tools_edge _ => rfl

/-- The model stub of the C9 witness: always answers without tool calls. -/
def echoModel : List Message → Message :=
  fun _ => { role := Role.ai, content := "done" }

/-- The tool oracle of the C9 witness: produces no result messages. -/
def noToolResults : GraphState → List Message :=
  fun _ => []

/-- Witness for C9: after a concrete agent step whose response carries no
tool calls, the graph transitions into the terminal marker and the routing
on the merged state is the end name. -/
theorem c9_terminal_only_after_agent_witness :
    shouldContinue (agentStep echoModel { messages := [] })
      = Except.ok "__end__" :=
  (c9_terminal_only_after_agent echoModel noToolResults Node.agent
    { messages := [] } (agentStep echoModel { messages := [] })
    (Step.agent_to_end { messages := [] } rfl)).1.2.2.1

/-- C10: for every input data array, the empty array included, the chart
tool handler returns exactly its fixed confirmation string; the rendered
chart reaches the user only through the emitted display side effect, never
through the return value. -/
theorem c10_chart_fixed_return (data : List DataPoint) :
    (chartTool data).2 = "Chart has been generated and displayed to the user!"
    ∧ DrawCmd.displayPng ∈ (chartTool data).1
    ∧ (chartTool data).2 = (chartTool []).2 := by
  refine ⟨rfl, ?_, rfl⟩
  simp [chartTool, chartCmds]

end LGMA
